import Mathlib

/-!
Verification of `egret/model_library/unit_commitment/reserve_requirement.py`.

The file shallowly embeds the reserve-requirement constraint builders of the
EGRET unit-commitment model library: the shortfall-variable factory
`_add_reserve_shortfall`, the Carrión–Arroyo variant `CA_reserve_constraints`
and the Morales-España/Latorre/Ramos variant `MLR_reserve_constraints`.

Pyomo model components are embedded explicitly: the model data (index sets and
parameters) is a record, the variable family `ReserveShortfall` is represented
by its per-period bounds, and a constraint family is a function from time
periods to constraint records `(lower, body, upper)` mirroring Pyomo's
`(lb, expr, None)` triples.  Constraint bodies are kept symbolic (lists of
variable identifiers with coefficients, or expression trees built by Python's
`sum`), and evaluated against an assignment of rationals to variables.
-/

namespace Egret

/-- Identifiers of the decision variables that can occur in a reserve
constraint body.  Generators, storage units and buses are indexed by naturals, as are
time periods by naturals. -/
inductive VarId where
  | maximumPowerAvailable (g : Nat) (t : Nat)
  | nondispatchablePowerUsed (n : Nat) (t : Nat)
  | powerOutputStorage (s : Nat) (t : Nat)
  | powerInputStorage (s : Nat) (t : Nat)
  | loadGenerateMismatch (b : Nat) (t : Nat)
  | reserveShortfall (t : Nat)
  | reserveProvided (g : Nat) (t : Nat)
deriving DecidableEq, Repr

/-- Expression trees as Python's `sum(...)` and `+` build them in
`_MLR_reserve_constraint`. -/
inductive PyExpr where
  | const (q : ℚ)
  | var (v : VarId)
  | add (a b : PyExpr)
deriving DecidableEq, Repr

/-- Evaluate an expression tree under an assignment of values to variables. -/
def PyExpr.eval (σ : VarId → ℚ) : PyExpr → ℚ
  | .const q => q
  | .var v => σ v
  | .add a b => a.eval σ + b.eval σ

/-- Python's built-in `sum` over a list of expressions: a left fold of `+`
starting from the integer `0`. -/
def pySum (xs : List PyExpr) : PyExpr := xs.foldl PyExpr.add (PyExpr.const 0)

/-- The two linear-expression representations `CA_reserve_constraints` chooses
between: Pyomo's structured `LinearExpression`, and the plain weighted
summation `uc_utils.linear_summation`. -/
inductive ExprRepr where
  | structured
  | weightedSum
deriving DecidableEq, Repr

/-- Modelled from the spec: evaluation of Pyomo's structured
`LinearExpression(linear_vars=..., linear_coefs=...)` (declared outside this
repository), "a form that keeps variable and coefficient lists separate";
its numeric value is the sum of coefficient·variable products. -/
def structuredEval (σ : VarId → ℚ) (linear_vars : List VarId)
    (linear_coefs : List ℚ) : ℚ :=
  ((linear_coefs.zip linear_vars).map (fun p => p.1 * σ p.2)).sum

/-- Modelled from the spec: `uc_utils.linear_summation` (the module is not
part of the sources under verification), the "weighted summation"
representation: "direct algebraic summation" of coefficient·variable
products, i.e. a running sum as Python's `sum` computes it. -/
def linear_summation_eval (σ : VarId → ℚ) (linear_vars : List VarId)
    (linear_coefs : List ℚ) : ℚ :=
  (linear_coefs.zip linear_vars).foldl (fun acc p => acc + p.1 * σ p.2) 0

/-- The body of an emitted constraint: either a linear combination built by
the representation `linear_expr(linear_vars=..., linear_coefs=...)` selected
in `CA_reserve_constraints`, or the expression tree Python's `sum` builds in
`_MLR_reserve_constraint`. -/
inductive BodyExpr where
  | linearCombo (reprUsed : ExprRepr) (linear_vars : List VarId)
      (linear_coefs : List ℚ)
  | sumTree (e : PyExpr)
deriving DecidableEq, Repr

/-- Numeric value of a constraint body under an assignment. -/
def BodyExpr.eval (σ : VarId → ℚ) : BodyExpr → ℚ
  | .linearCombo .structured vs cs => structuredEval σ vs cs
  | .linearCombo .weightedSum vs cs => linear_summation_eval σ vs cs
  | .sumTree e => e.eval σ

/-- Which representation a body was built with, when it is a linear combo. -/
def BodyExpr.chosenRepr : BodyExpr → Option ExprRepr
  | .linearCombo r _ _ => some r
  | .sumTree _ => none

/-- `true` exactly on bodies of the maximum-power-available (variant A)
shape. -/
def BodyExpr.isMaxPowerForm : BodyExpr → Bool
  | .linearCombo _ _ _ => true
  | .sumTree _ => false

/-- `true` exactly on bodies of the provided-reserve (variant B) shape. -/
def BodyExpr.isProvidedReserveForm : BodyExpr → Bool
  | .linearCombo _ _ _ => false
  | .sumTree _ => true

/-- One member of the constraint family, mirroring the Pyomo triple
`(lb, expr, ub)`: the relation is `lower ≤ body ≤ upper`, with `upper = none`
meaning no upper bound. -/
structure ReserveConstraint where
  lower : ℚ
  body : BodyExpr
  upper : Option ℚ
deriving DecidableEq, Repr

/-- The model components that exist before either builder runs: index sets,
parameters, and the variable-vs-parameter status of each externally declared
family (the result of `uc_utils.is_var` on it).  The builders read but never
write these. -/
structure UCModelData where
  timePeriods : List Nat
  reserveRequirement : Nat → ℚ
  totalDemand : Nat → ℚ
  thermalGenerators : List Nat
  allNondispatchableGenerators : List Nat
  storage : List Nat
  buses : List Nat
  reserveRequirementActive : Bool
  maximumPowerAvailableIsVar : Bool
  nondispatchablePowerUsedIsVar : Bool
  powerOutputStorageIsVar : Bool
  powerInputStorageIsVar : Bool
  loadGenerateMismatchIsVar : Bool

/-- Modelled from the spec: `reserve_vars.check_reserve_requirement`
(declared outside the sources under verification), "the decision of whether a
reserve requirement exists at all"; a model-wide boolean predicate read from
the model. -/
def check_reserve_requirement (m : UCModelData) : Bool :=
  m.reserveRequirementActive

/-- The mutable model state the builders act on: the read-only data plus the
two component families this core may add.  `reserveShortfall` records, when
present, the `(lower, upper)` bounds of `ReserveShortfall[t]` for each period;
`enforceReserveRequirements` records, when present, the constraint for each
period. -/
structure UCModelState where
  data : UCModelData
  reserveShortfall : Option (Nat → ℚ × ℚ)
  enforceReserveRequirements : Option (Nat → ReserveConstraint)

/-- `_add_reserve_shortfall(model, fixed)`: creates `ReserveShortfall` over
`TimePeriods`, with bounds `(0, 0)` when `fixed` is true and bounds
`(0, ReserveRequirement[t])` otherwise. -/
def _add_reserve_shortfall (m : UCModelState) (fixed : Bool) : UCModelState :=
  if fixed then
    { m with reserveShortfall := some (fun _ => ((0 : ℚ), (0 : ℚ))) }
  else
    let bounds := fun t => ((0 : ℚ), m.data.reserveRequirement t)
    { m with reserveShortfall := some bounds }

/-- The representation choice made in `CA_reserve_constraints` before the
per-period rule: the structured `LinearExpression` when all five families are
genuine variables, the weighted summation otherwise. -/
def CA_select_linear_expr (m : UCModelData) : ExprRepr :=
  if m.maximumPowerAvailableIsVar && m.nondispatchablePowerUsedIsVar &&
      m.powerOutputStorageIsVar && m.powerInputStorageIsVar &&
      m.loadGenerateMismatchIsVar then
    ExprRepr.structured
  else
    ExprRepr.weightedSum

/-- `enforce_reserve_requirements_rule(m, t)` inside
`CA_reserve_constraints`: assembles the variable and coefficient lists —
maximum power available per thermal generator, non-dispatchable power used,
storage output, load/generate mismatch, the shortfall (all with coefficient
`1.`), then storage input with coefficient `-1.` — and returns the triple
`(TotalDemand[t] + ReserveRequirement[t], linear_expr(...), None)`. -/
def enforce_reserve_requirements_rule (linear_expr : ExprRepr)
    (m : UCModelData) (t : Nat) : ReserveConstraint :=
  let linear_vars :=
    (m.thermalGenerators.map (fun g => VarId.maximumPowerAvailable g t))
      ++ (m.allNondispatchableGenerators.map
            (fun n => VarId.nondispatchablePowerUsed n t))
      ++ (m.storage.map (fun s => VarId.powerOutputStorage s t))
      ++ (m.buses.map (fun b => VarId.loadGenerateMismatch b t))
  let linear_vars := linear_vars ++ [VarId.reserveShortfall t]
  let linear_coefs : List ℚ := List.replicate linear_vars.length 1
  let neg_vars := m.storage.map (fun s => VarId.powerInputStorage s t)
  let neg_coefs : List ℚ := List.replicate neg_vars.length (-1)
  let linear_vars := linear_vars ++ neg_vars
  let linear_coefs := linear_coefs ++ neg_coefs
  { lower := m.totalDemand t + m.reserveRequirement t,
    body := BodyExpr.linearCombo linear_expr linear_vars linear_coefs,
    upper := none }

/-- `CA_reserve_constraints(model)`: the Carrión–Arroyo reserve requirement.
If the requirement is inactive, add the shortfall fixed at zero and return;
otherwise add the bounded shortfall, choose the linear-expression
representation once, and add `EnforceReserveRequirements` over
`TimePeriods`. -/
def CA_reserve_constraints (m : UCModelState) : UCModelState :=
  if check_reserve_requirement m.data = false then
    _add_reserve_shortfall m true
  else
    let m := _add_reserve_shortfall m false
    let linear_expr := CA_select_linear_expr m.data
    let rule := fun t => enforce_reserve_requirements_rule linear_expr m.data t
    { m with enforceReserveRequirements := some rule }

/-- `_MLR_reserve_constraint(model)`: adds `EnforceReserveRequirements` with
rule `sum(ReserveProvided[g,t] for g in ThermalGenerators) +
ReserveShortfall[t] >= ReserveRequirement[t]`. -/
def _MLR_reserve_constraint (m : UCModelState) : UCModelState :=
  { m with enforceReserveRequirements := some (fun t =>
      { lower := m.data.reserveRequirement t,
        body := BodyExpr.sumTree (PyExpr.add
          (pySum (m.data.thermalGenerators.map
            (fun g => PyExpr.var (VarId.reserveProvided g t))))
          (PyExpr.var (VarId.reserveShortfall t))),
        upper := none }) }

/-- `MLR_reserve_constraints(model)`: the Morales-España/Latorre/Ramos
reserve requirement.  Adds the shortfall fixed at zero, then, if the
requirement is inactive, adds it fixed at zero again and returns; otherwise
adds the bounded shortfall and the provided-reserve constraint. -/
def MLR_reserve_constraints (m : UCModelState) : UCModelState :=
  let m := _add_reserve_shortfall m true
  if check_reserve_requirement m.data = false then
    _add_reserve_shortfall m true
  else
    let m := _add_reserve_shortfall m false
    _MLR_reserve_constraint m

/-! ### Helper lemmas about evaluation and the builders -/

lemma foldl_add_eq_sum {α : Type} (f : α → ℚ) :
    ∀ (l : List α) (a : ℚ), l.foldl (fun acc x => acc + f x) a = a + (l.map f).sum := by
  intro l
  induction l with
  | nil => intro a; simp
  | cons x xs ih => intro a; simp [ih, add_assoc]

lemma linear_summation_eval_eq_structuredEval (σ : VarId → ℚ)
    (vs : List VarId) (cs : List ℚ) :
    linear_summation_eval σ vs cs = structuredEval σ vs cs := by
  unfold linear_summation_eval structuredEval
  rw [foldl_add_eq_sum (fun p => p.1 * σ p.2) (cs.zip vs) 0]
  simp

lemma BodyExpr.eval_linearCombo (σ : VarId → ℚ) (r : ExprRepr)
    (vs : List VarId) (cs : List ℚ) :
    (BodyExpr.linearCombo r vs cs).eval σ = structuredEval σ vs cs := by
  cases r
  · rfl
  · simp [BodyExpr.eval, linear_summation_eval_eq_structuredEval]

lemma structuredEval_append (σ : VarId → ℚ) (vs ws : List VarId)
    (cs ds : List ℚ) (h : cs.length = vs.length) :
    structuredEval σ (vs ++ ws) (cs ++ ds) =
      structuredEval σ vs cs + structuredEval σ ws ds := by
  unfold structuredEval
  rw [List.zip_append h, List.map_append, List.sum_append]

lemma structuredEval_replicate (σ : VarId → ℚ) (c : ℚ) (vs : List VarId) :
    structuredEval σ vs (List.replicate vs.length c) = c * (vs.map σ).sum := by
  induction vs with
  | nil => simp [structuredEval]
  | cons v vs ih =>
    simp only [structuredEval] at ih ⊢
    simp [List.replicate_succ, ih, mul_add]

lemma pySum_eval (σ : VarId → ℚ) (xs : List PyExpr) :
    (pySum xs).eval σ = (xs.map (PyExpr.eval σ)).sum := by
  have h : ∀ (l : List PyExpr) (a : PyExpr),
      (l.foldl PyExpr.add a).eval σ = a.eval σ + (l.map (PyExpr.eval σ)).sum := by
    intro l
    induction l with
    | nil => intro a; simp
    | cons x xs ih => intro a; simp [ih, PyExpr.eval, add_assoc]
  simpa [PyExpr.eval] using h xs (PyExpr.const 0)

lemma rule_body_eval (r : ExprRepr) (d : UCModelData) (t : Nat) (σ : VarId → ℚ) :
    ((enforce_reserve_requirements_rule r d t).body).eval σ =
      (d.thermalGenerators.map (fun g => σ (VarId.maximumPowerAvailable g t))).sum
      + (d.allNondispatchableGenerators.map
          (fun n => σ (VarId.nondispatchablePowerUsed n t))).sum
      + (d.storage.map (fun s => σ (VarId.powerOutputStorage s t))).sum
      + (d.buses.map (fun b => σ (VarId.loadGenerateMismatch b t))).sum
      + σ (VarId.reserveShortfall t)
      - (d.storage.map (fun s => σ (VarId.powerInputStorage s t))).sum := by
  unfold enforce_reserve_requirements_rule
  simp only [BodyExpr.eval_linearCombo]
  rw [structuredEval_append σ _ _ _ _ (List.length_replicate _ _)]
  rw [structuredEval_replicate, structuredEval_replicate]
  simp [List.map_append, List.sum_append, List.map_map, Function.comp_def]
  ring

lemma CA_data_eq (m : UCModelState) :
    (CA_reserve_constraints m).data = m.data := by
  unfold CA_reserve_constraints _add_reserve_shortfall
  by_cases h : check_reserve_requirement m.data = false <;> simp [h]

lemma MLR_data_eq (m : UCModelState) :
    (MLR_reserve_constraints m).data = m.data := by
  unfold MLR_reserve_constraints _MLR_reserve_constraint _add_reserve_shortfall
  by_cases h : check_reserve_requirement m.data = false <;> simp [h]

lemma CA_active_shortfall (m : UCModelState)
    (h : m.data.reserveRequirementActive = true) :
    (CA_reserve_constraints m).reserveShortfall =
      some (fun t => ((0 : ℚ), m.data.reserveRequirement t)) := by
  unfold CA_reserve_constraints _add_reserve_shortfall check_reserve_requirement
  simp [h]

lemma CA_active_enforce (m : UCModelState)
    (h : m.data.reserveRequirementActive = true) :
    (CA_reserve_constraints m).enforceReserveRequirements =
      some (fun t => enforce_reserve_requirements_rule
        (CA_select_linear_expr m.data) m.data t) := by
  unfold CA_reserve_constraints _add_reserve_shortfall check_reserve_requirement
  simp [h]

lemma CA_inactive_shortfall (m : UCModelState)
    (h : m.data.reserveRequirementActive = false) :
    (CA_reserve_constraints m).reserveShortfall =
      some (fun _ => ((0 : ℚ), (0 : ℚ))) := by
  unfold CA_reserve_constraints _add_reserve_shortfall check_reserve_requirement
  simp [h]

lemma CA_inactive_enforce (m : UCModelState)
    (h : m.data.reserveRequirementActive = false) :
    (CA_reserve_constraints m).enforceReserveRequirements =
      m.enforceReserveRequirements := by
  unfold CA_reserve_constraints _add_reserve_shortfall check_reserve_requirement
  simp [h]

lemma MLR_active_shortfall (m : UCModelState)
    (h : m.data.reserveRequirementActive = true) :
    (MLR_reserve_constraints m).reserveShortfall =
      some (fun t => ((0 : ℚ), m.data.reserveRequirement t)) := by
  unfold MLR_reserve_constraints _MLR_reserve_constraint _add_reserve_shortfall
    check_reserve_requirement
  simp [h]

lemma MLR_active_enforce (m : UCModelState)
    (h : m.data.reserveRequirementActive = true) :
    (MLR_reserve_constraints m).enforceReserveRequirements = some (fun t =>
      { lower := m.data.reserveRequirement t,
        body := BodyExpr.sumTree (PyExpr.add
          (pySum (m.data.thermalGenerators.map
            (fun g => PyExpr.var (VarId.reserveProvided g t))))
          (PyExpr.var (VarId.reserveShortfall t))),
        upper := none }) := by
  unfold MLR_reserve_constraints _MLR_reserve_constraint _add_reserve_shortfall
    check_reserve_requirement
  simp [h]

lemma MLR_inactive_shortfall (m : UCModelState)
    (h : m.data.reserveRequirementActive = false) :
    (MLR_reserve_constraints m).reserveShortfall =
      some (fun _ => ((0 : ℚ), (0 : ℚ))) := by
  unfold MLR_reserve_constraints _MLR_reserve_constraint _add_reserve_shortfall
    check_reserve_requirement
  simp [h]

lemma MLR_inactive_enforce (m : UCModelState)
    (h : m.data.reserveRequirementActive = false) :
    (MLR_reserve_constraints m).enforceReserveRequirements =
      m.enforceReserveRequirements := by
  unfold MLR_reserve_constraints _MLR_reserve_constraint _add_reserve_shortfall
    check_reserve_requirement
  simp [h]

/-! ### Concrete model instances used as witnesses

Thermal generators are `1, 2` (standing for g1, g2), the non-dispatchable
generator is `1` (n1), the storage unit is `1` (s1), the buses are `1, 2`
(b1, b2); the time periods are `1, 2` with reserve requirements `50` and `0`
as in the spec's scenario. -/

def demoData : UCModelData where
  timePeriods := [1, 2]
  reserveRequirement := fun t => if t = 1 then 50 else 0
  totalDemand := fun _ => 100
  thermalGenerators := [1, 2]
  allNondispatchableGenerators := [1]
  storage := [1]
  buses := [1, 2]
  reserveRequirementActive := true
  maximumPowerAvailableIsVar := true
  nondispatchablePowerUsedIsVar := true
  powerOutputStorageIsVar := true
  powerInputStorageIsVar := true
  loadGenerateMismatchIsVar := true

/-- A fresh model (no shortfall variable, no reserve constraint yet) with the
requirement active. -/
def demoActive : UCModelState where
  data := demoData
  reserveShortfall := none
  enforceReserveRequirements := none

/-- The same fresh model with the reserve requirement inactive. -/
def demoInactive : UCModelState :=
  { demoActive with data := { demoData with reserveRequirementActive := false } }

/-- A fresh active model whose generator, storage and bus sets are empty. -/
def demoEmptySets : UCModelState :=
  { demoActive with data := { demoData with
      thermalGenerators := [],
      allNondispatchableGenerators := [],
      storage := [],
      buses := [] } }

/-! ### Claims -/

/-- C1: with the reserve requirement active, variant A's constraint
`EnforceReserveRequirements[t]` has left side equal to the sum of
`MaximumPowerAvailable[g,t]` over thermal generators, plus
`NondispatchablePowerUsed[n,t]` over non-dispatchable generators, plus
`PowerOutputStorage[s,t]` over storage, plus `LoadGenerateMismatch[b,t]` over
buses, plus `ReserveShortfall[t]`, minus `PowerInputStorage[s,t]` over
storage; its right side is `TotalDemand[t] + ReserveRequirement[t]`; and the
relation is a lower-bounded inequality with no upper bound. -/
theorem C1_CA_constraint_shape (s : UCModelState)
    (hact : s.data.reserveRequirementActive = true)
    (t : Nat) (_ht : t ∈ s.data.timePeriods) :
    ∃ f, (CA_reserve_constraints s).enforceReserveRequirements = some f
      ∧ (f t).lower = s.data.totalDemand t + s.data.reserveRequirement t
      ∧ (f t).upper = none
      ∧ ∀ σ : VarId → ℚ, ((f t).body).eval σ =
          (s.data.thermalGenerators.map
            (fun g => σ (VarId.maximumPowerAvailable g t))).sum
          + (s.data.allNondispatchableGenerators.map
              (fun n => σ (VarId.nondispatchablePowerUsed n t))).sum
          + (s.data.storage.map (fun u => σ (VarId.powerOutputStorage u t))).sum
          + (s.data.buses.map (fun b => σ (VarId.loadGenerateMismatch b t))).sum
          + σ (VarId.reserveShortfall t)
          - (s.data.storage.map (fun u => σ (VarId.powerInputStorage u t))).sum := by
  exact ⟨_, CA_active_enforce s hact, rfl, rfl,
    fun σ => rule_body_eval (CA_select_linear_expr s.data) s.data t σ⟩

/-- Witness for C1 at the concrete active model and period 1. -/
theorem C1_CA_constraint_shape_witness :
    demoActive.data.reserveRequirementActive = true
    ∧ (1 : Nat) ∈ demoActive.data.timePeriods
    ∧ (∃ f, (CA_reserve_constraints demoActive).enforceReserveRequirements = some f
      ∧ (f 1).lower = demoActive.data.totalDemand 1 + demoActive.data.reserveRequirement 1
      ∧ (f 1).upper = none
      ∧ ∀ σ : VarId → ℚ, ((f 1).body).eval σ =
          (demoActive.data.thermalGenerators.map
            (fun g => σ (VarId.maximumPowerAvailable g 1))).sum
          + (demoActive.data.allNondispatchableGenerators.map
              (fun n => σ (VarId.nondispatchablePowerUsed n 1))).sum
          + (demoActive.data.storage.map
              (fun u => σ (VarId.powerOutputStorage u 1))).sum
          + (demoActive.data.buses.map
              (fun b => σ (VarId.loadGenerateMismatch b 1))).sum
          + σ (VarId.reserveShortfall 1)
          - (demoActive.data.storage.map
              (fun u => σ (VarId.powerInputStorage u 1))).sum) :=
  ⟨rfl, by decide, C1_CA_constraint_shape demoActive rfl 1 (by decide)⟩

/-- C2: with the reserve requirement active, `ReserveShortfall` is created by
either builder with lower bound `0` and upper bound `ReserveRequirement[t]`
for every period `t`. -/
theorem C2_shortfall_bounds_active (s : UCModelState)
    (hact : s.data.reserveRequirementActive = true) :
    (CA_reserve_constraints s).reserveShortfall =
      some (fun t => ((0 : ℚ), s.data.reserveRequirement t))
    ∧ (MLR_reserve_constraints s).reserveShortfall =
      some (fun t => ((0 : ℚ), s.data.reserveRequirement t)) :=
  ⟨CA_active_shortfall s hact, MLR_active_shortfall s hact⟩

/-- Witness for C2 at the spec's scenario: periods `{1, 2}` with requirement
`50` in period 1 and `0` in period 2, giving bounds `[0, 50]` and `[0, 0]`. -/
theorem C2_shortfall_bounds_active_witness :
    demoActive.data.reserveRequirementActive = true
    ∧ demoActive.data.timePeriods = [1, 2]
    ∧ demoActive.data.reserveRequirement 1 = 50
    ∧ demoActive.data.reserveRequirement 2 = 0
    ∧ ((CA_reserve_constraints demoActive).reserveShortfall =
        some (fun t => ((0 : ℚ), demoActive.data.reserveRequirement t))
      ∧ (MLR_reserve_constraints demoActive).reserveShortfall =
        some (fun t => ((0 : ℚ), demoActive.data.reserveRequirement t))) :=
  ⟨rfl, rfl, by decide, by decide, C2_shortfall_bounds_active demoActive rfl⟩

/-- C3: with the reserve requirement inactive, variant A creates
`ReserveShortfall[t]` with both bounds `0` for every period and adds no
reserve constraint (the `EnforceReserveRequirements` component is exactly
what it was before the call). -/
theorem C3_CA_inactive (s : UCModelState)
    (hina : s.data.reserveRequirementActive = false) :
    (CA_reserve_constraints s).reserveShortfall =
      some (fun _ => ((0 : ℚ), (0 : ℚ)))
    ∧ (CA_reserve_constraints s).enforceReserveRequirements =
      s.enforceReserveRequirements :=
  ⟨CA_inactive_shortfall s hina, CA_inactive_enforce s hina⟩

/-- Witness for C3 at the concrete inactive model, where no constraint was
present before the call, hence none after it. -/
theorem C3_CA_inactive_witness :
    demoInactive.data.reserveRequirementActive = false
    ∧ (CA_reserve_constraints demoInactive).reserveShortfall =
        some (fun _ => ((0 : ℚ), (0 : ℚ)))
    ∧ (CA_reserve_constraints demoInactive).enforceReserveRequirements = none :=
  ⟨rfl, (C3_CA_inactive demoInactive rfl).1, (C3_CA_inactive demoInactive rfl).2⟩

/-- C4: in variant A the structured representation is selected exactly when
all five participating families are genuine decision variables, otherwise the
weighted summation is selected; and the selection is a single value fixed
before the per-period rule, so every period's constraint carries the same
representation. -/
theorem C4_CA_representation_selection (s : UCModelState)
    (hact : s.data.reserveRequirementActive = true) :
    ∃ f, (CA_reserve_constraints s).enforceReserveRequirements = some f
      ∧ (∀ t, ((f t).body).chosenRepr = some (CA_select_linear_expr s.data))
      ∧ (CA_select_linear_expr s.data = ExprRepr.structured ↔
          (s.data.maximumPowerAvailableIsVar = true
           ∧ s.data.nondispatchablePowerUsedIsVar = true
           ∧ s.data.powerOutputStorageIsVar = true
           ∧ s.data.powerInputStorageIsVar = true
           ∧ s.data.loadGenerateMismatchIsVar = true))
      ∧ (CA_select_linear_expr s.data = ExprRepr.weightedSum ↔
          ¬ (s.data.maximumPowerAvailableIsVar = true
           ∧ s.data.nondispatchablePowerUsedIsVar = true
           ∧ s.data.powerOutputStorageIsVar = true
           ∧ s.data.powerInputStorageIsVar = true
           ∧ s.data.loadGenerateMismatchIsVar = true)) := by
  refine ⟨_, CA_active_enforce s hact, fun t => rfl, ?_, ?_⟩
  · unfold CA_select_linear_expr
    split
    · next hcond => simp_all [Bool.and_eq_true]
    · next hcond => simp_all [Bool.and_eq_true]
  · unfold CA_select_linear_expr
    split
    · next hcond => simp_all [Bool.and_eq_true]
    · next hcond => simp_all [Bool.and_eq_true]

/-- Witness for C4 at the concrete active model, where all five families are
variables. -/
theorem C4_CA_representation_selection_witness :
    demoActive.data.reserveRequirementActive = true
    ∧ (∃ f, (CA_reserve_constraints demoActive).enforceReserveRequirements = some f
      ∧ (∀ t, ((f t).body).chosenRepr = some (CA_select_linear_expr demoActive.data))
      ∧ (CA_select_linear_expr demoActive.data = ExprRepr.structured ↔
          (demoActive.data.maximumPowerAvailableIsVar = true
           ∧ demoActive.data.nondispatchablePowerUsedIsVar = true
           ∧ demoActive.data.powerOutputStorageIsVar = true
           ∧ demoActive.data.powerInputStorageIsVar = true
           ∧ demoActive.data.loadGenerateMismatchIsVar = true))
      ∧ (CA_select_linear_expr demoActive.data = ExprRepr.weightedSum ↔
          ¬ (demoActive.data.maximumPowerAvailableIsVar = true
           ∧ demoActive.data.nondispatchablePowerUsedIsVar = true
           ∧ demoActive.data.powerOutputStorageIsVar = true
           ∧ demoActive.data.powerInputStorageIsVar = true
           ∧ demoActive.data.loadGenerateMismatchIsVar = true))) :=
  ⟨rfl, C4_CA_representation_selection demoActive rfl⟩

/-- C5: the structured and weighted-summation representations evaluate to the
same numeric value for every assignment and every pair of variable and
coefficient lists, so the representation choice never changes the value of an
emitted constraint body. -/
theorem C5_representation_equivalence :
    ∀ (σ : VarId → ℚ) (vs : List VarId) (cs : List ℚ),
      linear_summation_eval σ vs cs = structuredEval σ vs cs
      ∧ ∀ r₁ r₂ : ExprRepr,
          (BodyExpr.linearCombo r₁ vs cs).eval σ =
            (BodyExpr.linearCombo r₂ vs cs).eval σ := by
  intro σ vs cs
  refine ⟨linear_summation_eval_eq_structuredEval σ vs cs, fun r₁ r₂ => ?_⟩
  rw [BodyExpr.eval_linearCombo, BodyExpr.eval_linearCombo]

/-- C6: with the reserve requirement active, variant B emits for every period
the constraint that the sum of `ReserveProvided[g,t]` over thermal generators
plus `ReserveShortfall[t]` is at least `ReserveRequirement[t]`. -/
theorem C6_MLR_constraint_shape (s : UCModelState)
    (hact : s.data.reserveRequirementActive = true)
    (t : Nat) (_ht : t ∈ s.data.timePeriods) :
    ∃ f, (MLR_reserve_constraints s).enforceReserveRequirements = some f
      ∧ (f t).lower = s.data.reserveRequirement t
      ∧ (f t).upper = none
      ∧ ∀ σ : VarId → ℚ, ((f t).body).eval σ =
          (s.data.thermalGenerators.map
            (fun g => σ (VarId.reserveProvided g t))).sum
          + σ (VarId.reserveShortfall t) := by
  refine ⟨_, MLR_active_enforce s hact, rfl, rfl, fun σ => ?_⟩
  simp [BodyExpr.eval, PyExpr.eval, pySum_eval, List.map_map, Function.comp_def]

/-- Witness for C6 at the concrete active model with thermal generators
`{1, 2}` and period 1. -/
theorem C6_MLR_constraint_shape_witness :
    demoActive.data.reserveRequirementActive = true
    ∧ (1 : Nat) ∈ demoActive.data.timePeriods
    ∧ (∃ f, (MLR_reserve_constraints demoActive).enforceReserveRequirements = some f
      ∧ (f 1).lower = demoActive.data.reserveRequirement 1
      ∧ (f 1).upper = none
      ∧ ∀ σ : VarId → ℚ, ((f 1).body).eval σ =
          (demoActive.data.thermalGenerators.map
            (fun g => σ (VarId.reserveProvided g 1))).sum
          + σ (VarId.reserveShortfall 1)) :=
  ⟨rfl, by decide, C6_MLR_constraint_shape demoActive rfl 1 (by decide)⟩

/-- C7: on variant B's inactive path the net observable effect is
`ReserveShortfall[t]` with both bounds `0` for every period and no
`EnforceReserveRequirements` constraint on the model. -/
theorem C7_MLR_inactive (s : UCModelState)
    (hina : s.data.reserveRequirementActive = false)
    (h0 : s.enforceReserveRequirements = none) :
    (MLR_reserve_constraints s).reserveShortfall =
      some (fun _ => ((0 : ℚ), (0 : ℚ)))
    ∧ (MLR_reserve_constraints s).enforceReserveRequirements = none :=
  ⟨MLR_inactive_shortfall s hina, (MLR_inactive_enforce s hina).trans h0⟩

/-- Witness for C7 at the concrete inactive model. -/
theorem C7_MLR_inactive_witness :
    demoInactive.data.reserveRequirementActive = false
    ∧ demoInactive.enforceReserveRequirements = none
    ∧ ((MLR_reserve_constraints demoInactive).reserveShortfall =
        some (fun _ => ((0 : ℚ), (0 : ℚ)))
      ∧ (MLR_reserve_constraints demoInactive).enforceReserveRequirements = none) :=
  ⟨rfl, rfl, C7_MLR_inactive demoInactive rfl rfl⟩

/-- An assignment that gives the value `q` to every `ReserveShortfall`
variable and `0` to everything else; used to exhibit satisfying points of the
emitted constraints. -/
def shortfallOnly (q : ℚ) : VarId → ℚ
  | .reserveShortfall _ => q
  | .maximumPowerAvailable _ _ => 0
  | .nondispatchablePowerUsed _ _ => 0
  | .powerOutputStorage _ _ => 0
  | .powerInputStorage _ _ => 0
  | .loadGenerateMismatch _ _ => 0
  | .reserveProvided _ _ => 0

/-- C8: after either builder runs with the requirement active, every time
period carries exactly one reserve constraint — variant A's of the
maximum-power-available form and not the provided-reserve form, variant B's
the other way around — together with a shortfall variable bounded by the
requirement; and every period, including one whose requirement is zero,
receives a satisfiable constraint. -/
theorem C8_invariant (s : UCModelState)
    (hact : s.data.reserveRequirementActive = true)
    (t : Nat) (_ht : t ∈ s.data.timePeriods) :
    (∃ f, (CA_reserve_constraints s).enforceReserveRequirements = some f
      ∧ ((f t).body).isMaxPowerForm = true
      ∧ ((f t).body).isProvidedReserveForm = false
      ∧ ∃ σ : VarId → ℚ, (f t).lower ≤ ((f t).body).eval σ)
    ∧ (∃ f, (MLR_reserve_constraints s).enforceReserveRequirements = some f
      ∧ ((f t).body).isProvidedReserveForm = true
      ∧ ((f t).body).isMaxPowerForm = false
      ∧ ∃ σ : VarId → ℚ, (f t).lower ≤ ((f t).body).eval σ)
    ∧ (CA_reserve_constraints s).reserveShortfall =
        some (fun u => ((0 : ℚ), s.data.reserveRequirement u))
    ∧ (MLR_reserve_constraints s).reserveShortfall =
        some (fun u => ((0 : ℚ), s.data.reserveRequirement u)) := by
  refine ⟨⟨_, CA_active_enforce s hact, rfl, rfl, ?_⟩,
    ⟨_, MLR_active_enforce s hact, rfl, rfl, ?_⟩,
    CA_active_shortfall s hact, MLR_active_shortfall s hact⟩
  · refine ⟨shortfallOnly
      (max (s.data.totalDemand t + s.data.reserveRequirement t) 0), ?_⟩
    rw [rule_body_eval]
    simp [shortfallOnly, enforce_reserve_requirements_rule, le_max_left]
  · refine ⟨shortfallOnly (max (s.data.reserveRequirement t) 0), ?_⟩
    simp [BodyExpr.eval, PyExpr.eval, pySum_eval, List.map_map,
      Function.comp_def, shortfallOnly, le_max_left]

/-- Witness for C8 at the concrete active model and period 2, whose reserve
requirement is zero. -/
theorem C8_invariant_witness :
    demoActive.data.reserveRequirementActive = true
    ∧ (2 : Nat) ∈ demoActive.data.timePeriods
    ∧ demoActive.data.reserveRequirement 2 = 0
    ∧ ((∃ f, (CA_reserve_constraints demoActive).enforceReserveRequirements = some f
      ∧ ((f 2).body).isMaxPowerForm = true
      ∧ ((f 2).body).isProvidedReserveForm = false
      ∧ ∃ σ : VarId → ℚ, (f 2).lower ≤ ((f 2).body).eval σ)
    ∧ (∃ f, (MLR_reserve_constraints demoActive).enforceReserveRequirements = some f
      ∧ ((f 2).body).isProvidedReserveForm = true
      ∧ ((f 2).body).isMaxPowerForm = false
      ∧ ∃ σ : VarId → ℚ, (f 2).lower ≤ ((f 2).body).eval σ)
    ∧ (CA_reserve_constraints demoActive).reserveShortfall =
        some (fun u => ((0 : ℚ), demoActive.data.reserveRequirement u))
    ∧ (MLR_reserve_constraints demoActive).reserveShortfall =
        some (fun u => ((0 : ℚ), demoActive.data.reserveRequirement u))) :=
  ⟨rfl, by decide, by decide, C8_invariant demoActive rfl 2 (by decide)⟩

/-- C9: both builders leave every pre-existing model component unchanged
(the whole read-only data record is preserved), always create the
`ReserveShortfall` family, create `EnforceReserveRequirements` exactly when
the requirement is active, and otherwise leave that component as it was. -/
theorem C9_frame (s : UCModelState) :
    (CA_reserve_constraints s).data = s.data
    ∧ (MLR_reserve_constraints s).data = s.data
    ∧ ((CA_reserve_constraints s).reserveShortfall).isSome = true
    ∧ ((MLR_reserve_constraints s).reserveShortfall).isSome = true
    ∧ (s.data.reserveRequirementActive = true →
        ((CA_reserve_constraints s).enforceReserveRequirements).isSome = true
        ∧ ((MLR_reserve_constraints s).enforceReserveRequirements).isSome = true)
    ∧ (s.data.reserveRequirementActive = false →
        (CA_reserve_constraints s).enforceReserveRequirements =
          s.enforceReserveRequirements
        ∧ (MLR_reserve_constraints s).enforceReserveRequirements =
          s.enforceReserveRequirements) := by
  refine ⟨CA_data_eq s, MLR_data_eq s, ?_, ?_, ?_, ?_⟩
  · cases h : s.data.reserveRequirementActive
    · rw [CA_inactive_shortfall s h]; rfl
    · rw [CA_active_shortfall s h]; rfl
  · cases h : s.data.reserveRequirementActive
    · rw [MLR_inactive_shortfall s h]; rfl
    · rw [MLR_active_shortfall s h]; rfl
  · intro h
    rw [CA_active_enforce s h, MLR_active_enforce s h]
    exact ⟨rfl, rfl⟩
  · intro h
    exact ⟨CA_inactive_enforce s h, MLR_inactive_enforce s h⟩

/-- Witness for C9 applied at the concrete inactive model. -/
theorem C9_frame_witness :
    (CA_reserve_constraints demoInactive).data = demoInactive.data
    ∧ (MLR_reserve_constraints demoInactive).data = demoInactive.data
    ∧ ((CA_reserve_constraints demoInactive).reserveShortfall).isSome = true
    ∧ ((MLR_reserve_constraints demoInactive).reserveShortfall).isSome = true
    ∧ (demoInactive.data.reserveRequirementActive = true →
        ((CA_reserve_constraints demoInactive).enforceReserveRequirements).isSome = true
        ∧ ((MLR_reserve_constraints demoInactive).enforceReserveRequirements).isSome = true)
    ∧ (demoInactive.data.reserveRequirementActive = false →
        (CA_reserve_constraints demoInactive).enforceReserveRequirements =
          demoInactive.enforceReserveRequirements
        ∧ (MLR_reserve_constraints demoInactive).enforceReserveRequirements =
          demoInactive.enforceReserveRequirements) :=
  C9_frame demoInactive

/-- C10: in variant A with the requirement active and all of the generator,
storage and bus sets empty, the constraint is still emitted for every period;
its body is the single term `ReserveShortfall[t]` with coefficient `+1`, and
the constraint reads `ReserveShortfall[t] ≥ TotalDemand[t] +
ReserveRequirement[t]`. -/
theorem C10_CA_empty_sets (s : UCModelState)
    (hact : s.data.reserveRequirementActive = true)
    (hg : s.data.thermalGenerators = [])
    (hn : s.data.allNondispatchableGenerators = [])
    (hs : s.data.storage = [])
    (hb : s.data.buses = [])
    (t : Nat) (_ht : t ∈ s.data.timePeriods) :
    ∃ f, (CA_reserve_constraints s).enforceReserveRequirements = some f
      ∧ (f t).lower = s.data.totalDemand t + s.data.reserveRequirement t
      ∧ (f t).upper = none
      ∧ (f t).body = BodyExpr.linearCombo (CA_select_linear_expr s.data)
          [VarId.reserveShortfall t] [1]
      ∧ ∀ σ : VarId → ℚ, ((f t).body).eval σ = σ (VarId.reserveShortfall t) := by
  refine ⟨_, CA_active_enforce s hact, rfl, rfl, ?_, fun σ => ?_⟩
  · unfold enforce_reserve_requirements_rule
    simp [hg, hn, hs, hb]
  · rw [rule_body_eval]
    simp [hg, hn, hs, hb]

/-- Witness for C10 at the concrete active model with empty sets, period 1. -/
theorem C10_CA_empty_sets_witness :
    demoEmptySets.data.reserveRequirementActive = true
    ∧ demoEmptySets.data.thermalGenerators = []
    ∧ demoEmptySets.data.allNondispatchableGenerators = []
    ∧ demoEmptySets.data.storage = []
    ∧ demoEmptySets.data.buses = []
    ∧ (1 : Nat) ∈ demoEmptySets.data.timePeriods
    ∧ (∃ f, (CA_reserve_constraints demoEmptySets).enforceReserveRequirements = some f
      ∧ (f 1).lower = demoEmptySets.data.totalDemand 1
          + demoEmptySets.data.reserveRequirement 1
      ∧ (f 1).upper = none
      ∧ (f 1).body = BodyExpr.linearCombo (CA_select_linear_expr demoEmptySets.data)
          [VarId.reserveShortfall 1] [1]
      ∧ ∀ σ : VarId → ℚ, ((f 1).body).eval σ = σ (VarId.reserveShortfall 1)) :=
  ⟨rfl, rfl, rfl, rfl, rfl, by decide,
    C10_CA_empty_sets demoEmptySets rfl rfl rfl rfl rfl 1 (by decide)⟩

end Egret
